import Mathlib

/-!
Shallow embedding of the traffic-manager localization stage
(`TrafficManager/source/pipeline/LocalizationStage.cpp`).

Waypoints carry a location (3 rational coordinates), the OpenDRIVE
(road, section, lane) identity, and a junction flag.  The successor
relation of the road map (`GetNextWaypoint`), the geometry helper
`DeviationDotProduct` (a function of the fixed vehicle pose), the map's
nearest-waypoint lookup, the lane-change decision of the traffic
distributor and the `rand()` stream are inputs of the per-vehicle step,
mirroring the external collaborators of the stage.  Buffers are lists
with the front at the head; `pop_front` is `tail`, `push_back` appends.
All float arithmetic of the source is modelled over `ℚ`.
-/

namespace TrafficManager

/-- Waypoint datum: location coordinates, OpenDRIVE identity and junction
flag, as consumed by `LocalizationStage::Action`. -/
structure Waypoint where
  x : ℚ
  y : ℚ
  z : ℚ
  roadId : ℕ
  sectionId : ℕ
  laneId : ℤ
  isJunction : Bool
  deriving DecidableEq, Repr

/-- Squared euclidean distance between waypoint locations
(`SimpleWaypoint::DistanceSquared`). -/
def distSq (a b : Waypoint) : ℚ :=
  (a.x - b.x) ^ 2 + (a.y - b.y) ^ 2 + (a.z - b.z) ^ 2

/-- Localization constants from the `LocalizationConstants` namespace. -/
def WAYPOINT_TIME_HORIZON : ℚ := 3
def MINIMUM_HORIZON_LENGTH : ℚ := 25
def TARGET_WAYPOINT_TIME_HORIZON : ℚ := 1 / 2
def TARGET_WAYPOINT_HORIZON_LENGTH : ℚ := 2
def MINIMUM_JUNCTION_LOOK_AHEAD : ℚ := 3
/-- Highway speed threshold, `50 / 3.6f` in the source (50 km/h,
rendered 13.89 in the design notes). -/
def HIGHWAY_SPEED : ℚ := 50 / (18 / 5)

/-- Horizon size for buffer growth:
`std::max(WAYPOINT_TIME_HORIZON * vehicle_velocity, MINIMUM_HORIZON_LENGTH)`. -/
def horizonSize (velocity : ℚ) : ℚ :=
  max (WAYPOINT_TIME_HORIZON * velocity) MINIMUM_HORIZON_LENGTH

/-- Target point distance:
`std::max(std::ceil(vehicle_velocity * TARGET_WAYPOINT_TIME_HORIZON), TARGET_WAYPOINT_HORIZON_LENGTH)`. -/
def targetPointDistance (velocity : ℚ) : ℚ :=
  max ((⌈velocity * TARGET_WAYPOINT_TIME_HORIZON⌉ : ℤ) : ℚ) TARGET_WAYPOINT_HORIZON_LENGTH

/-- Junction look-ahead distance:
`std::max(2 * vehicle_velocity, MINIMUM_JUNCTION_LOOK_AHEAD)`. -/
def lookAheadDistance (velocity : ℚ) : ℚ :=
  max (2 * velocity) MINIMUM_JUNCTION_LOOK_AHEAD

/-- Resynchronization of the active buffer from the exposed copy
(source lines 90-101): if both buffers are non-empty and the front
waypoints disagree on lane, section or road id, the active contents are
cleared and replaced by a full copy of the exposed contents. -/
def resyncBuffer (active copy : List Waypoint) : List Waypoint :=
  match active.head?, copy.head? with
  | some f, some c =>
      if c.laneId ≠ f.laneId ∨ c.sectionId ≠ f.sectionId ∨ c.roadId ≠ f.roadId then
        copy
      else
        active
  | _, _ => active

/-- Purge of passed waypoints (source lines 103-114): while the buffer is
non-empty and `DeviationDotProduct(vehicle, front.location) ≤ 0`, pop the
front.  The vehicle pose is fixed, so the helper is the function `dev`. -/
def trimBuffer (dev : Waypoint → ℚ) : List Waypoint → List Waypoint
  | [] => []
  | w :: rest => if dev w ≤ 0 then trimBuffer dev rest else w :: rest

/-- Result of the buffer-population loop: the grown buffer, the fatal
map-topology error (a successor-less waypoint reached while the loop
guard still holds, `next_waypoints.at(selection_index)` throwing), or
fuel exhaustion of the loop model. -/
inductive GrowResult where
  | ok : List Waypoint → GrowResult
  | topologyError : GrowResult
  | outOfFuel : GrowResult
  deriving DecidableEq, Repr

/-- Successor selection index of the growth loop:
`rand() % next_waypoints.size()` when there is more than one choice,
index 0 otherwise. -/
def selectionIndex (nexts : List Waypoint) (r : ℕ) : ℕ :=
  if 1 < nexts.length then r % nexts.length else 0

/-- Buffer population (source lines 150-164): while
`back.DistanceSquared(front) <= pow(horizon_size, 2)`, fetch the
successors of the back, select one — `rand() % size` when more than one,
else index 0 — and push it at the back.  `rands` streams the `rand()`
values; the while loop is modelled with fuel. -/
def growBuffer (nextOf : Waypoint → List Waypoint) (horizon : ℚ) :
    ℕ → (ℕ → ℕ) → List Waypoint → GrowResult
  | fuel, rands, buf =>
    match buf.getLast?, buf.head? with
    | some back, some front =>
        if distSq back front ≤ horizon ^ 2 then
          match fuel with
          | 0 => .outOfFuel
          | fuel' + 1 =>
              let nexts := nextOf back
              match nexts.get? (selectionIndex nexts (rands 0)) with
              | none => .topologyError
              | some w => growBuffer nextOf horizon fuel' (fun i => rands (i + 1)) (buf ++ [w])
        else .ok buf
    | _, _ => .ok buf

/-- Steering-target walk (source lines 169-176):
`for (i = 0; i < size && distSq(front, target) < pow(tpd, 2); ++i) target = buf.at(i)`.
The parameter `t2` is the already squared threshold. -/
def targetLoop (f : Waypoint) (t2 : ℚ) (buf : List Waypoint) (i : ℕ) (target : Waypoint) :
    Waypoint :=
  match h : buf.get? i with
  | none => target
  | some w =>
      if distSq f target < t2 then targetLoop f t2 buf (i + 1) w else target
termination_by buf.length - i
decreasing_by
  have hi : i < buf.length := by
    rcases List.get?_eq_some.mp h with ⟨h1, _⟩
    exact h1
  omega

/-- Steering-target selection for a buffer: the walk starts with
`target_waypoint = waypoint_buffer.front()`; `none` on an empty buffer
(never reached after reseeding). -/
def selectTarget (t2 : ℚ) : List Waypoint → Option Waypoint
  | [] => none
  | f :: rest => some (targetLoop f t2 (f :: rest) 0 f)

/-- Junction look-ahead walk (source lines 192-201):
`for (i = 0; distSq(front, lap) < pow(lad, 2) && i < size; ++i) { lap = buf.at(i); lidx = i; }`.
Returns the final look-ahead point and index. -/
def lookLoop (f : Waypoint) (t2 : ℚ) (buf : List Waypoint) (i : ℕ) (lap : Waypoint)
    (lidx : ℕ) : Waypoint × ℕ :=
  match h : buf.get? i with
  | none => (lap, lidx)
  | some w =>
      if distSq f lap < t2 then lookLoop f t2 buf (i + 1) w i else (lap, lidx)
termination_by buf.length - i
decreasing_by
  have hi : i < buf.length := by
    rcases List.get?_eq_some.mp h with ⟨h1, _⟩
    exact h1
  omega

/-- Look-ahead point and index for a buffer, starting from
`look_ahead_point = waypoint_buffer.front()` and `look_ahead_index = 0`. -/
def lookAhead (t2 : ℚ) : List Waypoint → Option (Waypoint × ℕ)
  | [] => none
  | f :: rest => some (lookLoop f t2 (f :: rest) 0 f 0)

/-- Approach classification (source lines 203-215), given the computed
look-ahead point and index: the flag is false unless the look-ahead
point is a junction while the buffer front is not; then, above
`HIGHWAY_SPEED`, it scans the entries at indices strictly below the
look-ahead index for one with more than one successor, and below or at
the threshold it is set unconditionally. -/
def junctionFlag (nextOf : Waypoint → List Waypoint) (speedLimit : ℚ)
    (buf : List Waypoint) (lap : Waypoint) (lidx : ℕ) : Bool :=
  match buf with
  | [] => false
  | f :: _ =>
      if lap.isJunction && !f.isJunction then
        if HIGHWAY_SPEED < speedLimit then
          (buf.take lidx).any fun w => decide (1 < (nextOf w).length)
        else true
      else false

/-- External inputs of one vehicle's pass of `Action`: the velocity
magnitude, the map's nearest waypoint to the vehicle location
(`local_map.GetWaypoint`), the deviation helper fixed at the vehicle
pose, the traffic distributor's lane-change answer
(`AssignLaneChange`, `nullptr` as `none`) and the `rand()` stream. -/
structure VehicleInput where
  velocity : ℚ
  nearest : Waypoint
  dev : Waypoint → ℚ
  laneChange : Option Waypoint
  speedLimit : ℚ
  rands : ℕ → ℕ

/-- Buffer reseeding (source lines 116-120): if the buffer is empty
after trimming, push the map's nearest waypoint as the sole element. -/
def reseedBuffer (nearest : Waypoint) (buf : List Waypoint) : List Waypoint :=
  if buf.isEmpty then [nearest] else buf

/-- Lane-change integration (source lines 134-148): when the front
waypoint is not inside a junction and the distributor returns a
change-over point, the buffer contents are cleared and replaced by that
single waypoint. -/
def laneChangeStep (laneChange : Option Waypoint) (buf : List Waypoint) : List Waypoint :=
  match buf with
  | [] => buf
  | f :: _ =>
      if f.isJunction = false then
        match laneChange with
        | some w => [w]
        | none => buf
      else buf

/-- One vehicle's buffer maintenance inside `Action` (source lines
90-164): resync from the exposed copy, trim passed waypoints, reseed
when empty, apply a lane-change redirect when the front is not a
junction, then populate up to the horizon. -/
def processBuffer (nextOf : Waypoint → List Waypoint) (inp : VehicleInput) (fuel : ℕ)
    (active copy : List Waypoint) : GrowResult :=
  growBuffer nextOf (horizonSize inp.velocity) fuel inp.rands
    (laneChangeStep inp.laneChange
      (reseedBuffer inp.nearest (trimBuffer inp.dev (resyncBuffer active copy))))

/-- New contents of the buffer at one vehicle index: the grown buffer on
success; a grow error throws out of `Action` in the source, leaving the
exposed list untouched either way. -/
def stepBuffer (nextOf : Waypoint → List Waypoint) (inp : VehicleInput) (fuel : ℕ)
    (active copy : List Waypoint) : List Waypoint :=
  match processBuffer nextOf inp fuel active copy with
  | .ok out => out
  | _ => active

/-- Per-index update of the buffer list selected as active, over the
partition `[lo, hi]` of `Action(start_index, end_index)`; entries
outside the partition are untouched. -/
def updateRange (nextOf : Waypoint → List Waypoint) (inputs : ℕ → VehicleInput) (fuel : ℕ)
    (cur copy : List (List Waypoint)) (lo hi : ℕ) : List (List Waypoint) :=
  cur.mapIdx fun i b =>
    if lo ≤ i ∧ i ≤ hi then stepBuffer nextOf (inputs i) fuel b (copy.getD i []) else b

/-- Buffer-list effect of `Action` (source lines 71-72 and the vehicle
loop): `current_buffer_list = collision_frame_selector ? a : b` is
mutated per vehicle, `copy_buffer_list` is the other list and is only
read. -/
def localizationAction (nextOf : Waypoint → List Waypoint) (inputs : ℕ → VehicleInput)
    (fuel : ℕ) (collisionFrameSelector : Bool) (a b : List (List Waypoint)) (lo hi : ℕ) :
    List (List Waypoint) × List (List Waypoint) :=
  if collisionFrameSelector then
    (updateRange nextOf inputs fuel a b lo hi, b)
  else
    (a, updateRange nextOf inputs fuel b a lo hi)

/-- Producer-side state of `DataSender`: the three frame selectors and
the three locally recorded messenger generations. -/
structure SenderState where
  planner_frame_selector : Bool
  collision_frame_selector : Bool
  traffic_light_frame_selector : Bool
  planner_messenger_state : ℤ
  collision_messenger_state : ℤ
  traffic_light_messenger_state : ℤ
  deriving DecidableEq, Repr

/-- Messenger responses observed during one `DataSender` call: the value
each `SendData` returns, and the `GetState` reads of the two best-effort
channels. -/
structure SenderEnv where
  planner_send_ret : ℤ
  collision_get : ℤ
  collision_send_ret : ℤ
  traffic_get : ℤ
  traffic_send_ret : ℤ
  deriving DecidableEq, Repr

/-- `DataSender` (source lines 236-275): the planner channel sends
unconditionally, flipping its selector and recording the returned
generation; each best-effort channel (collision, traffic light) sends
only when `GetState` differs from its recorded generation, then records
the returned generation and flips its selector.  Returns the new state
and whether each best-effort channel sent. -/
def dataSender (env : SenderEnv) (s : SenderState) : SenderState × Bool × Bool :=
  let s1 : SenderState :=
    { s with
      planner_frame_selector := !s.planner_frame_selector
      planner_messenger_state := env.planner_send_ret }
  let collisionSend := env.collision_get ≠ s1.collision_messenger_state
  let s2 : SenderState :=
    if collisionSend then
      { s1 with
        collision_messenger_state := env.collision_send_ret
        collision_frame_selector := !s1.collision_frame_selector }
    else s1
  let trafficSend := env.traffic_get ≠ s2.traffic_light_messenger_state
  let s3 : SenderState :=
    if trafficSend then
      { s2 with
        traffic_light_messenger_state := env.traffic_send_ret
        traffic_light_frame_selector := !s2.traffic_light_frame_selector }
    else s2
  (s3, decide collisionSend, decide trafficSend)

/-- Specification-side reformulation of the target walk used to settle
its characterization: step through successive candidates while the
current candidate is strictly inside the squared threshold. -/
def walkT (f : Waypoint) (t2 : ℚ) : Waypoint → List Waypoint → Waypoint
  | target, [] => target
  | target, w :: rest => if distSq f target < t2 then walkT f t2 w rest else target

/-- Sample waypoint at the origin on road 1. -/
def cex0 : Waypoint := ⟨0, 0, 0, 1, 1, 1, false⟩
/-- Sample waypoint 3 units ahead of `cex0`. -/
def cex3 : Waypoint := ⟨3, 0, 0, 1, 1, 1, false⟩
/-- Sample waypoint 25 units ahead of `cex0`, exactly the zero-velocity
horizon away from it. -/
def cex25 : Waypoint := ⟨25, 0, 0, 1, 1, 1, false⟩
/-- Sample waypoint 30 units ahead of `cex0`. -/
def cex30 : Waypoint := ⟨30, 0, 0, 1, 1, 1, false⟩
/-- Sample waypoint 100 units ahead of `cex0`. -/
def cex100 : Waypoint := ⟨100, 0, 0, 1, 1, 1, false⟩
/-- Sample waypoint on a different road (road 2). -/
def cexRoad2 : Waypoint := ⟨5, 5, 0, 2, 1, 1, false⟩
/-- Sample junction waypoint 3 units ahead of `cex0`. -/
def cexJunction : Waypoint := ⟨3, 0, 0, 1, 1, 1, true⟩

/-- Sample successor map: `cex25` continues to `cex100`, everything else
to `cex30`. -/
def cexNext : Waypoint → List Waypoint :=
  fun w => if w = cex25 then [cex100] else [cex30]

/-- Sample successor map with no successors anywhere. -/
def cexNextEmpty : Waypoint → List Waypoint := fun _ => []

/-- Sample vehicle input: at rest at the origin, nearest waypoint
`cex0`, every buffer point still ahead, no lane change. -/
def cexInput : VehicleInput :=
  { velocity := 0
    nearest := cex0
    dev := fun _ => 1
    laneChange := none
    speedLimit := 10
    rands := fun _ => 0 }

theorem targetLoop_none {f : Waypoint} {t2 : ℚ} {b : List Waypoint} {i : ℕ}
    {t : Waypoint} (h : b.get? i = none) :
    targetLoop f t2 b i t = t := by
  rw [targetLoop]
  split
  · rfl
  · rename_i w h'
    rw [h] at h'
    cases h'

theorem targetLoop_go {f : Waypoint} {t2 : ℚ} {b : List Waypoint} {i : ℕ}
    {t w : Waypoint} (h : b.get? i = some w) (hlt : distSq f t < t2) :
    targetLoop f t2 b i t = targetLoop f t2 b (i + 1) w := by
  rw [targetLoop]
  split
  · simp_all
  · rename_i w' h'
    rw [h] at h'
    cases h'
    simp [hlt]

theorem targetLoop_stop {f : Waypoint} {t2 : ℚ} {b : List Waypoint} {i : ℕ}
    {t w : Waypoint} (h : b.get? i = some w) (hge : ¬ distSq f t < t2) :
    targetLoop f t2 b i t = t := by
  rw [targetLoop]
  split
  · rfl
  · rename_i w' h'
    rw [h] at h'
    cases h'
    simp [hge]

theorem lookLoop_none {f : Waypoint} {t2 : ℚ} {b : List Waypoint} {i : ℕ}
    {l : Waypoint} {lidx : ℕ} (h : b.get? i = none) :
    lookLoop f t2 b i l lidx = (l, lidx) := by
  rw [lookLoop]
  split
  · rfl
  · rename_i w h'
    rw [h] at h'
    cases h'

theorem lookLoop_go {f : Waypoint} {t2 : ℚ} {b : List Waypoint} {i : ℕ}
    {l w : Waypoint} {lidx : ℕ} (h : b.get? i = some w) (hlt : distSq f l < t2) :
    lookLoop f t2 b i l lidx = lookLoop f t2 b (i + 1) w i := by
  rw [lookLoop]
  split
  · simp_all
  · rename_i w' h'
    rw [h] at h'
    cases h'
    simp [hlt]

theorem lookLoop_stop {f : Waypoint} {t2 : ℚ} {b : List Waypoint} {i : ℕ}
    {l w : Waypoint} {lidx : ℕ} (h : b.get? i = some w) (hge : ¬ distSq f l < t2) :
    lookLoop f t2 b i l lidx = (l, lidx) := by
  rw [lookLoop]
  split
  · rfl
  · rename_i w' h'
    rw [h] at h'
    cases h'
    simp [hge]

theorem growBuffer_stop {nextOf : Waypoint → List Waypoint} {horizon : ℚ} {fuel : ℕ}
    {rands : ℕ → ℕ} {b : List Waypoint} {back front : Waypoint}
    (hb : b.getLast? = some back) (hf : b.head? = some front)
    (h : ¬ distSq back front ≤ horizon ^ 2) :
    growBuffer nextOf horizon fuel rands b = .ok b := by
  rw [growBuffer]
  split
  · rename_i back' front' hb' hf'
    rw [hb] at hb'
    cases hb'
    rw [hf] at hf'
    cases hf'
    simp [h]
  · rfl

theorem growBuffer_fuelZero {nextOf : Waypoint → List Waypoint} {horizon : ℚ}
    {rands : ℕ → ℕ} {b : List Waypoint} {back front : Waypoint}
    (hb : b.getLast? = some back) (hf : b.head? = some front)
    (h : distSq back front ≤ horizon ^ 2) :
    growBuffer nextOf horizon 0 rands b = .outOfFuel := by
  rw [growBuffer]
  split
  · rename_i back' front' hb' hf'
    rw [hb] at hb'
    cases hb'
    rw [hf] at hf'
    cases hf'
    simp [h]
  · rename_i h'
    exact absurd hb (h' back front · hf)

theorem growBuffer_topo {nextOf : Waypoint → List Waypoint} {horizon : ℚ} {fuel : ℕ}
    {rands : ℕ → ℕ} {b : List Waypoint} {back front : Waypoint}
    (hb : b.getLast? = some back) (hf : b.head? = some front)
    (h : distSq back front ≤ horizon ^ 2)
    (hn : (nextOf back).get? (selectionIndex (nextOf back) (rands 0)) = none) :
    growBuffer nextOf horizon (fuel + 1) rands b = .topologyError := by
  rw [growBuffer]
  split
  · rename_i back' front' hb' hf'
    rw [hb] at hb'
    cases hb'
    rw [hf] at hf'
    cases hf'
    have hn' : (nextOf back)[selectionIndex (nextOf back) (rands 0)]? = none := by
      rw [← List.get?_eq_getElem?]
      exact hn
    simp [h, hn']
  · rename_i h'
    exact absurd hb (h' back front · hf)

theorem growBuffer_go {nextOf : Waypoint → List Waypoint} {horizon : ℚ} {fuel : ℕ}
    {rands : ℕ → ℕ} {b : List Waypoint} {back front w : Waypoint}
    (hb : b.getLast? = some back) (hf : b.head? = some front)
    (h : distSq back front ≤ horizon ^ 2)
    (hw : (nextOf back).get? (selectionIndex (nextOf back) (rands 0)) = some w) :
    growBuffer nextOf horizon (fuel + 1) rands b =
      growBuffer nextOf horizon fuel (fun i => rands (i + 1)) (b ++ [w]) := by
  conv_lhs => rw [growBuffer]
  split
  · rename_i back' front' hb' hf'
    rw [hb] at hb'
    cases hb'
    rw [hf] at hf'
    cases hf'
    have hw' : (nextOf back)[selectionIndex (nextOf back) (rands 0)]? = some w := by
      rw [← List.get?_eq_getElem?]
      exact hw
    simp [h, hw']
  · rename_i h'
    exact absurd hb (h' back front · hf)

/-- C3: the purge loop removes exactly the maximal prefix of consecutive
buffer entries with signed deviation ≤ 0: the remaining buffer is a
suffix (no entry after the first retained one is removed), every removed
entry had deviation ≤ 0, and the result is either empty or fronted by an
entry of strictly positive deviation. -/
theorem trimBuffer_maximal_prefix (dev : Waypoint → ℚ) (buf : List Waypoint) :
    ∃ p, buf = p ++ trimBuffer dev buf ∧ (∀ w ∈ p, dev w ≤ 0) ∧
      (trimBuffer dev buf = [] ∨
        ∃ w r, trimBuffer dev buf = w :: r ∧ 0 < dev w) := by
  induction buf with
  | nil => exact ⟨[], rfl, by simp, Or.inl rfl⟩
  | cons w rest ih =>
      by_cases hw : dev w ≤ 0
      · obtain ⟨p, hp, hle, hres⟩ := ih
        refine ⟨w :: p, ?_, ?_, ?_⟩
        · simpa [trimBuffer, hw] using hp
        · intro u hu
          rcases List.mem_cons.mp hu with h | h
          · exact h ▸ hw
          · exact hle u h
        · simpa [trimBuffer, hw] using hres
      · refine ⟨[], by simp [trimBuffer, hw], by simp, Or.inr ⟨w, rest, ?_, ?_⟩⟩
        · simp [trimBuffer, hw]
        · exact lt_of_not_le hw

/-- C5: the resynchronization step replaces the active buffer with a
full copy of the exposed buffer exactly when both are non-empty and
their front waypoints' (road, section, lane) triples differ, and leaves
the active buffer unchanged otherwise. -/
theorem resyncBuffer_spec (active copy : List Waypoint) :
    (∀ f c, active.head? = some f → copy.head? = some c →
      (((f.roadId, f.sectionId, f.laneId) ≠ (c.roadId, c.sectionId, c.laneId) →
          resyncBuffer active copy = copy) ∧
        ((f.roadId, f.sectionId, f.laneId) = (c.roadId, c.sectionId, c.laneId) →
          resyncBuffer active copy = active))) ∧
      ((active = [] ∨ copy = []) → resyncBuffer active copy = active) := by
  constructor
  · intro f c hf hc
    constructor
    · intro hne
      have hdiff : c.laneId ≠ f.laneId ∨ c.sectionId ≠ f.sectionId ∨ c.roadId ≠ f.roadId := by
        by_contra hcon
        push_neg at hcon
        exact hne (by simp [hcon.1, hcon.2.1, hcon.2.2])
      simp [resyncBuffer, hf, hc, hdiff]
    · intro heq
      have h1 : f.roadId = c.roadId := congrArg Prod.fst heq
      have h2 : f.sectionId = c.sectionId := congrArg (fun p => p.2.1) heq
      have h3 : f.laneId = c.laneId := congrArg (fun p => p.2.2) heq
      simp [resyncBuffer, hf, hc, h1, h2, h3]
  · intro h
    rcases h with h | h <;> simp [resyncBuffer, h]

/-- C5 witness at concrete buffers: differing road ids force the copy,
equal triples keep the active buffer, and an empty copy keeps the active
buffer. -/
theorem resyncBuffer_spec_witness :
    resyncBuffer [cex0] [cexRoad2] = [cexRoad2] ∧
      resyncBuffer [cex0] [cex3] = [cex0] ∧
      resyncBuffer [cex0] [] = [cex0] := by
  refine ⟨?_, ?_, ?_⟩
  · exact ((resyncBuffer_spec [cex0] [cexRoad2]).1 cex0 cexRoad2 rfl rfl).1
      (by decide)
  · exact ((resyncBuffer_spec [cex0] [cex3]).1 cex0 cex3 rfl rfl).2
      (by decide)
  · exact (resyncBuffer_spec [cex0] []).2 (Or.inr rfl)

/-- C8: `Action` never mutates the exposed buffer copy.  When the
collision frame selector picks list `a` as active, the returned list `b`
is identical to its input, and symmetrically: all per-vehicle updates
target the active list only, the other list is only read. -/
theorem action_preserves_exposed (nextOf : Waypoint → List Waypoint)
    (inputs : ℕ → VehicleInput) (fuel : ℕ) (a b : List (List Waypoint)) (lo hi : ℕ) :
    (localizationAction nextOf inputs fuel true a b lo hi).2 = b ∧
      (localizationAction nextOf inputs fuel false a b lo hi).1 = a := by
  constructor <;> simp [localizationAction]

/-- C7: each best-effort channel of `DataSender` sends, flips its frame
selector and records the returned generation exactly when the channel's
current generation differs from the recorded one; when they are equal no
send happens and both the selector and the recorded generation are
unchanged.  Stated for the collision channel and the traffic-light
channel of `dataSender`. -/
theorem dataSender_best_effort (env : SenderEnv) (s : SenderState) :
    ((env.collision_get ≠ s.collision_messenger_state →
        (dataSender env s).2.1 = true ∧
          (dataSender env s).1.collision_frame_selector = !s.collision_frame_selector ∧
          (dataSender env s).1.collision_messenger_state = env.collision_send_ret) ∧
      (env.collision_get = s.collision_messenger_state →
        (dataSender env s).2.1 = false ∧
          (dataSender env s).1.collision_frame_selector = s.collision_frame_selector ∧
          (dataSender env s).1.collision_messenger_state = s.collision_messenger_state)) ∧
      ((env.traffic_get ≠ s.traffic_light_messenger_state →
          (dataSender env s).2.2 = true ∧
            (dataSender env s).1.traffic_light_frame_selector =
              !s.traffic_light_frame_selector ∧
            (dataSender env s).1.traffic_light_messenger_state = env.traffic_send_ret) ∧
        (env.traffic_get = s.traffic_light_messenger_state →
          (dataSender env s).2.2 = false ∧
            (dataSender env s).1.traffic_light_frame_selector =
              s.traffic_light_frame_selector ∧
            (dataSender env s).1.traffic_light_messenger_state =
              s.traffic_light_messenger_state)) := by
  by_cases hc : env.collision_get = s.collision_messenger_state <;>
    by_cases ht : env.traffic_get = s.traffic_light_messenger_state <;>
      simp [dataSender, hc, ht]

/-- C7 witness: with recorded generations 0 and the collision channel
advanced to 1 while the traffic-light channel still reads 0, the
collision channel sends, flips and records the returned generation and
the traffic-light channel does not. -/
theorem dataSender_best_effort_witness :
    ((dataSender ⟨7, 1, 2, 0, 9⟩ ⟨true, true, true, 0, 0, 0⟩).2.1 = true ∧
        (dataSender ⟨7, 1, 2, 0, 9⟩ ⟨true, true, true, 0, 0, 0⟩).1.collision_frame_selector =
          !true ∧
        (dataSender ⟨7, 1, 2, 0, 9⟩ ⟨true, true, true, 0, 0, 0⟩).1.collision_messenger_state =
          2) ∧
      ((dataSender ⟨7, 1, 2, 0, 9⟩ ⟨true, true, true, 0, 0, 0⟩).2.2 = false ∧
        (dataSender ⟨7, 1, 2, 0, 9⟩ ⟨true, true, true, 0, 0, 0⟩).1.traffic_light_frame_selector =
          true ∧
        (dataSender ⟨7, 1, 2, 0, 9⟩ ⟨true, true, true, 0, 0, 0⟩).1.traffic_light_messenger_state =
          0) :=
  ⟨(dataSender_best_effort ⟨7, 1, 2, 0, 9⟩ ⟨true, true, true, 0, 0, 0⟩).1.1 (by decide),
    (dataSender_best_effort ⟨7, 1, 2, 0, 9⟩ ⟨true, true, true, 0, 0, 0⟩).2.2 (by decide)⟩

theorem selectionIndex_lt {nexts : List Waypoint} (h : nexts ≠ []) (r : ℕ) :
    selectionIndex nexts r < nexts.length := by
  unfold selectionIndex
  split
  · rename_i hlen
    exact Nat.mod_lt _ (by omega)
  · have : 0 < nexts.length := List.length_pos.mpr h
    omega

theorem growBuffer_nil {nextOf : Waypoint → List Waypoint} {horizon : ℚ} {fuel : ℕ}
    {rands : ℕ → ℕ} : growBuffer nextOf horizon fuel rands [] = .ok [] := by
  rw [growBuffer]
  rfl

theorem growBuffer_ok_ne_nil {nextOf : Waypoint → List Waypoint} {horizon : ℚ} :
    ∀ (fuel : ℕ) (rands : ℕ → ℕ) (buf out : List Waypoint), buf ≠ [] →
      growBuffer nextOf horizon fuel rands buf = .ok out → out ≠ [] := by
  intro fuel
  induction fuel with
  | zero =>
      intro rands buf out hbuf hok
      have hback := List.getLast?_eq_getLast_of_ne_nil hbuf
      have hfront := List.head?_eq_head hbuf
      by_cases hguard : distSq (buf.getLast hbuf) (buf.head hbuf) ≤ horizon ^ 2
      · rw [growBuffer_fuelZero hback hfront hguard] at hok
        cases hok
      · rw [growBuffer_stop hback hfront hguard] at hok
        cases hok
        exact hbuf
  | succ fuel ih =>
      intro rands buf out hbuf hok
      have hback := List.getLast?_eq_getLast_of_ne_nil hbuf
      have hfront := List.head?_eq_head hbuf
      by_cases hguard : distSq (buf.getLast hbuf) (buf.head hbuf) ≤ horizon ^ 2
      · cases hget : (buf.getLast hbuf |> nextOf).get?
            (selectionIndex (nextOf (buf.getLast hbuf)) (rands 0)) with
        | none =>
            rw [growBuffer_topo hback hfront hguard hget] at hok
            cases hok
        | some w =>
            rw [growBuffer_go hback hfront hguard hget] at hok
            exact ih _ _ _ (by simp) hok
      · rw [growBuffer_stop hback hfront hguard] at hok
        cases hok
        exact hbuf

/-- C9: a successor-less waypoint at the buffer back while the growth
guard still holds makes the growth loop fail with the fatal map-topology
error, and under the precondition that every waypoint has at least one
successor this error branch is unreachable: growth never returns the
topology error. -/
theorem growBuffer_topology (nextOf : Waypoint → List Waypoint) (horizon : ℚ) :
    (∀ (fuel : ℕ) (rands : ℕ → ℕ) (buf : List Waypoint) (back front : Waypoint),
        buf.getLast? = some back → buf.head? = some front → nextOf back = [] →
        distSq back front ≤ horizon ^ 2 →
        growBuffer nextOf horizon (fuel + 1) rands buf = .topologyError) ∧
      ((∀ w, nextOf w ≠ []) →
        ∀ (fuel : ℕ) (rands : ℕ → ℕ) (buf : List Waypoint),
          growBuffer nextOf horizon fuel rands buf ≠ .topologyError) := by
  constructor
  · intro fuel rands buf back front hb hf hnone hguard
    refine growBuffer_topo hb hf hguard ?_
    rw [hnone]
    rfl
  · intro hsucc fuel
    induction fuel with
    | zero =>
        intro rands buf
        by_cases hbuf : buf = []
        · subst hbuf
          rw [growBuffer_nil]
          simp
        · have hback := List.getLast?_eq_getLast_of_ne_nil hbuf
          have hfront := List.head?_eq_head hbuf
          by_cases hguard : distSq (buf.getLast hbuf) (buf.head hbuf) ≤ horizon ^ 2
          · rw [growBuffer_fuelZero hback hfront hguard]
            simp
          · rw [growBuffer_stop hback hfront hguard]
            simp
    | succ fuel ih =>
        intro rands buf
        by_cases hbuf : buf = []
        · subst hbuf
          rw [growBuffer_nil]
          simp
        · have hback := List.getLast?_eq_getLast_of_ne_nil hbuf
          have hfront := List.head?_eq_head hbuf
          by_cases hguard : distSq (buf.getLast hbuf) (buf.head hbuf) ≤ horizon ^ 2
          · have hlt : selectionIndex (nextOf (buf.getLast hbuf)) (rands 0) <
                (nextOf (buf.getLast hbuf)).length :=
              selectionIndex_lt (hsucc _) _
            have hsome := List.get?_eq_get hlt
            rw [growBuffer_go hback hfront hguard hsome]
            exact ih _ _
          · rw [growBuffer_stop hback hfront hguard]
            simp

/-- C9 witness: growing `[cex0]` under the empty successor map hits the
topology error, and under `cexNext` (at least one successor everywhere)
growth does not return the topology error. -/
theorem growBuffer_topology_witness :
    growBuffer cexNextEmpty (horizonSize 0) 3 (fun _ => 0) [cex0] = .topologyError ∧
      growBuffer cexNext (horizonSize 0) 5 (fun _ => 0) [cex0] ≠ .topologyError := by
  constructor
  · exact (growBuffer_topology cexNextEmpty (horizonSize 0)).1 2 (fun _ => 0) [cex0] cex0 cex0
      rfl rfl rfl
      (by norm_num [distSq, cex0, horizonSize, WAYPOINT_TIME_HORIZON, MINIMUM_HORIZON_LENGTH])
  · refine (growBuffer_topology cexNext (horizonSize 0)).2 ?_ 5 (fun _ => 0) [cex0]
    intro w
    unfold cexNext
    split <;> simp

theorem reseedBuffer_ne_nil (nearest : Waypoint) (buf : List Waypoint) :
    reseedBuffer nearest buf ≠ [] := by
  unfold reseedBuffer
  by_cases h : buf.isEmpty <;> simp_all [List.isEmpty_iff]

theorem laneChangeStep_ne_nil {laneChange : Option Waypoint} {buf : List Waypoint}
    (h : buf ≠ []) : laneChangeStep laneChange buf ≠ [] := by
  cases buf with
  | nil => exact absurd rfl h
  | cons f rest =>
      cases laneChange <;> by_cases hj : f.isJunction = false <;> simp [laneChangeStep, hj]

/-- C1: whenever one vehicle's buffer maintenance completes (the growth
loop returns a buffer rather than an error), the resulting active buffer
is non-empty: reseeding repopulates an emptied buffer, a lane-change
redirect installs exactly one waypoint, and growth only appends. -/
theorem processBuffer_nonempty (nextOf : Waypoint → List Waypoint) (inp : VehicleInput)
    (fuel : ℕ) (active copy out : List Waypoint) :
    processBuffer nextOf inp fuel active copy = .ok out → out ≠ [] := by
  intro h
  unfold processBuffer at h
  exact growBuffer_ok_ne_nil _ _ _ _
    (laneChangeStep_ne_nil (reseedBuffer_ne_nil _ _)) h

/-- C1 witness: a vehicle at rest with empty buffers completes with the
non-empty buffer `[cex0, cex30]`. -/
theorem processBuffer_nonempty_witness :
    processBuffer cexNext cexInput 5 [] [] = .ok [cex0, cex30] ∧
      ([cex0, cex30] : List Waypoint) ≠ [] := by
  have hstep : processBuffer cexNext cexInput 5 [] [] = .ok [cex0, cex30] := by
    unfold processBuffer
    have hred : laneChangeStep cexInput.laneChange
        (reseedBuffer cexInput.nearest (trimBuffer cexInput.dev (resyncBuffer [] []))) =
        [cex0] := by
      simp [cexInput, resyncBuffer, trimBuffer, reseedBuffer, laneChangeStep, cex0]
    rw [hred]
    have hnext : cexNext cex0 = [cex30] := by
      norm_num [cexNext, cex0, cex25]
    have hget : (cexNext cex0).get? (selectionIndex (cexNext cex0) (cexInput.rands 0)) =
        some cex30 := by
      rw [hnext]
      rfl
    rw [growBuffer_go (b := [cex0]) rfl rfl
      (by norm_num [distSq, cex0, cexInput, horizonSize, WAYPOINT_TIME_HORIZON,
        MINIMUM_HORIZON_LENGTH])
      hget]
    exact growBuffer_stop (b := [cex0, cex30]) rfl rfl
      (by norm_num [distSq, cex0, cex30, cexInput, horizonSize, WAYPOINT_TIME_HORIZON,
        MINIMUM_HORIZON_LENGTH])
  exact ⟨hstep, processBuffer_nonempty cexNext cexInput 5 [] [] [cex0, cex30] hstep⟩

/-- C2 counterexample: the growth loop guard is `<=`, not `<`.  With the
vehicle at rest (`horizon_size = 25`), a buffer whose back sits exactly
`horizon_size` away from the front — squared distance exactly
`horizon_size²` — still receives one more waypoint: growth returns
`[cex0, cex25, cex100]`, not the unchanged `[cex0, cex25]` the claim
requires. -/
theorem growBuffer_boundary_counterexample :
    distSq cex25 cex0 = (horizonSize 0) ^ 2 ∧
      growBuffer cexNext (horizonSize 0) 5 (fun _ => 0) [cex0, cex25] =
        .ok [cex0, cex25, cex100] ∧
      ([cex0, cex25, cex100] : List Waypoint) ≠ [cex0, cex25] := by
  refine ⟨?_, ?_, by simp⟩
  · norm_num [distSq, cex0, cex25, horizonSize, WAYPOINT_TIME_HORIZON, MINIMUM_HORIZON_LENGTH]
  · have hget : (cexNext cex25).get? (selectionIndex (cexNext cex25) 0) = some cex100 := by
      have hnext : cexNext cex25 = [cex100] := by norm_num [cexNext]
      rw [hnext]
      rfl
    rw [growBuffer_go (b := [cex0, cex25]) rfl rfl
      (by norm_num [distSq, cex0, cex25, horizonSize, WAYPOINT_TIME_HORIZON,
        MINIMUM_HORIZON_LENGTH])
      hget]
    exact growBuffer_stop (b := [cex0, cex25, cex100]) rfl rfl
      (by norm_num [distSq, cex0, cex100, horizonSize, WAYPOINT_TIME_HORIZON,
        MINIMUM_HORIZON_LENGTH])

/-- C2 amended: with `horizon_size = max(3 × |velocity|, 25)`, the growth
loop appends one successor of the buffer back exactly while the squared
back-to-front distance is less than **or equal to** `horizon_size²`
(the source guard is `<=`): strictly beyond the threshold nothing is
appended and the buffer is returned, and at or below the threshold —
including exact equality — one successor of the back is appended and the
loop continues. -/
theorem growBuffer_guard_amended :
    (∀ v : ℚ, horizonSize v = max (3 * v) 25) ∧
      ∀ (nextOf : Waypoint → List Waypoint) (horizon : ℚ) (fuel : ℕ) (rands : ℕ → ℕ)
        (buf : List Waypoint) (back front : Waypoint),
        buf.getLast? = some back → buf.head? = some front →
        ((horizon ^ 2 < distSq back front →
            growBuffer nextOf horizon fuel rands buf = .ok buf) ∧
          (distSq back front ≤ horizon ^ 2 → ∀ w,
            (nextOf back).get? (selectionIndex (nextOf back) (rands 0)) = some w →
            w ∈ nextOf back ∧
              growBuffer nextOf horizon (fuel + 1) rands buf =
                growBuffer nextOf horizon fuel (fun i => rands (i + 1)) (buf ++ [w]))) := by
  refine ⟨fun v => rfl, ?_⟩
  intro nextOf horizon fuel rands buf back front hb hf
  constructor
  · intro hgt
    exact growBuffer_stop hb hf (not_le.mpr hgt)
  · intro hle w hw
    exact ⟨List.get?_mem hw, growBuffer_go hb hf hle hw⟩

/-- C2 amended witness: beyond the horizon (`[cex0, cex100]`, squared
distance 10000 > 625) growth returns the buffer unchanged, and at the
boundary (`[cex0, cex25]`, squared distance exactly 625) the successor
`cex100` of the back is appended. -/
theorem growBuffer_guard_amended_witness :
    growBuffer cexNext (horizonSize 0) 7 (fun _ => 0) [cex0, cex100] = .ok [cex0, cex100] ∧
      cex100 ∈ cexNext cex25 ∧
      growBuffer cexNext (horizonSize 0) 4 (fun _ => 0) [cex0, cex25] =
        growBuffer cexNext (horizonSize 0) 3 (fun i => (fun _ => 0) (i + 1))
          ([cex0, cex25] ++ [cex100]) := by
  have hget : (cexNext cex25).get? (selectionIndex (cexNext cex25) 0) = some cex100 := by
    have hnext : cexNext cex25 = [cex100] := by norm_num [cexNext]
    rw [hnext]
    rfl
  have hmain := (growBuffer_guard_amended.2 cexNext (horizonSize 0) 3 (fun _ => 0)
    [cex0, cex25] cex25 cex0 rfl rfl).2
    (by norm_num [distSq, cex0, cex25, horizonSize, WAYPOINT_TIME_HORIZON,
      MINIMUM_HORIZON_LENGTH])
    cex100 hget
  refine ⟨?_, hmain.1, hmain.2⟩
  exact (growBuffer_guard_amended.2 cexNext (horizonSize 0) 7 (fun _ => 0)
    [cex0, cex100] cex100 cex0 rfl rfl).1
    (by norm_num [distSq, cex0, cex100, horizonSize, WAYPOINT_TIME_HORIZON,
      MINIMUM_HORIZON_LENGTH])

theorem targetLoop_eq_walkT (f : Waypoint) (t2 : ℚ) (buf : List Waypoint) :
    ∀ (n i : ℕ) (target : Waypoint), buf.length - i ≤ n →
      targetLoop f t2 buf i target = walkT f t2 target (buf.drop i) := by
  intro n
  induction n with
  | zero =>
      intro i target hn
      have hle : buf.length ≤ i := by omega
      rw [targetLoop_none (List.get?_eq_none.mpr hle), List.drop_eq_nil_of_le hle]
      rfl
  | succ n ih =>
      intro i target hn
      cases hget : buf.get? i with
      | none =>
          have hle : buf.length ≤ i := List.get?_eq_none.mp hget
          rw [targetLoop_none hget, List.drop_eq_nil_of_le hle]
          rfl
      | some w =>
          obtain ⟨hi, hw⟩ := List.get?_eq_some.mp hget
          have hdrop : buf.drop i = w :: buf.drop (i + 1) := by
            rw [List.drop_eq_getElem_cons hi]
            simp [← hw]
          by_cases hlt : distSq f target < t2
          · rw [targetLoop_go hget hlt, hdrop, walkT, if_pos hlt]
            exact ih (i + 1) w (by omega)
          · rw [targetLoop_stop hget hlt, hdrop, walkT, if_neg hlt]

theorem walkT_eq_find (f : Waypoint) (t2 : ℚ) :
    ∀ (l : List Waypoint) (target : Waypoint),
      walkT f t2 target l =
        ((target :: l).find? fun w => decide (t2 ≤ distSq f w)).getD
          ((target :: l).getLast (List.cons_ne_nil target l)) := by
  intro l
  induction l with
  | nil =>
      intro target
      by_cases hd : t2 ≤ distSq f target
      · simp [walkT, List.find?_cons, hd]
      · simp [walkT, List.find?_cons, hd]
  | cons w rest ih =>
      intro target
      by_cases hd : distSq f target < t2
      · have hp : (decide (t2 ≤ distSq f target)) = false := by
          simp [not_le.mpr hd]
        have hfind : ((target :: w :: rest).find? fun u => decide (t2 ≤ distSq f u)) =
            ((w :: rest).find? fun u => decide (t2 ≤ distSq f u)) := by
          rw [List.find?_cons, hp]
        have hlast : (target :: w :: rest).getLast (List.cons_ne_nil _ _) =
            (w :: rest).getLast (List.cons_ne_nil _ _) :=
          List.getLast_cons (List.cons_ne_nil _ _)
        rw [walkT, if_pos hd, ih w, hfind, hlast]
      · have hp : (decide (t2 ≤ distSq f target)) = true := by
          simp [not_lt.mp hd]
        rw [walkT, if_neg hd, List.find?_cons, hp]
        rfl

/-- C4 counterexample: with velocity 0 the squared threshold is 4, and
on the buffer `[cex0, cex3]` (squared front distances 0 and 9) the code
selects `cex3`, whose squared distance 9 from the front is **not**
strictly below the threshold; the last entry strictly inside the
threshold is `cex0 ≠ cex3`, so the claimed selection is wrong. -/
theorem selectTarget_counterexample :
    selectTarget ((targetPointDistance 0) ^ 2) [cex0, cex3] = some cex3 ∧
      ¬ distSq cex0 cex3 < (targetPointDistance 0) ^ 2 ∧
      distSq cex0 cex0 < (targetPointDistance 0) ^ 2 ∧
      cex3 ≠ cex0 := by
  have ht : targetPointDistance 0 = 2 := by
    norm_num [targetPointDistance, TARGET_WAYPOINT_TIME_HORIZON,
      TARGET_WAYPOINT_HORIZON_LENGTH]
  refine ⟨?_, ?_, ?_, by simp [cex0, cex3]⟩
  · rw [selectTarget, ht]
    rw [targetLoop_go (b := [cex0, cex3]) (i := 0) (t := cex0) (w := cex0) rfl
      (by norm_num [distSq, cex0])]
    rw [targetLoop_go (b := [cex0, cex3]) (i := 1) (t := cex0) (w := cex3) rfl
      (by norm_num [distSq, cex0])]
    rw [targetLoop_none (b := [cex0, cex3]) (i := 2) rfl]
  · rw [ht]
    norm_num [distSq, cex0, cex3]
  · rw [ht]
    norm_num [distSq, cex0]

/-- C4 amended: for velocity 0 the threshold is 2.0, and the steering
target returned by the walk is the **first** buffer entry whose squared
distance from the buffer front reaches or exceeds the squared threshold
(the entry on which the walk's condition first fails), or the buffer's
last entry when every entry lies strictly inside the threshold — not the
last entry strictly inside it. -/
theorem selectTarget_amended :
    targetPointDistance 0 = 2 ∧
      ∀ (t2 : ℚ) (f : Waypoint) (rest : List Waypoint),
        selectTarget t2 (f :: rest) =
          some (((f :: rest).find? fun w => decide (t2 ≤ distSq f w)).getD
            ((f :: rest).getLast (List.cons_ne_nil f rest))) := by
  constructor
  · norm_num [targetPointDistance, TARGET_WAYPOINT_TIME_HORIZON,
      TARGET_WAYPOINT_HORIZON_LENGTH]
  · intro t2 f rest
    rw [selectTarget,
      targetLoop_eq_walkT f t2 (f :: rest) (f :: rest).length 0 f (by omega)]
    rw [List.drop_zero, walkT_eq_find]
    have hfind : ((f :: f :: rest).find? fun w => decide (t2 ≤ distSq f w)) =
        ((f :: rest).find? fun w => decide (t2 ≤ distSq f w)) := by
      cases hp : (decide (t2 ≤ distSq f f)) with
      | false => simp only [List.find?_cons, hp]
      | true => simp only [List.find?_cons, hp]
    have hlast : (f :: f :: rest).getLast (List.cons_ne_nil _ _) =
        (f :: rest).getLast (List.cons_ne_nil _ _) :=
      List.getLast_cons (List.cons_ne_nil _ _)
    rw [hfind, hlast]

theorem lookLoop_lidx_lt (f : Waypoint) (t2 : ℚ) (buf : List Waypoint) :
    ∀ (n i : ℕ) (lap : Waypoint) (lidx : ℕ), buf.length - i ≤ n → lidx < buf.length →
      (lookLoop f t2 buf i lap lidx).2 < buf.length := by
  intro n
  induction n with
  | zero =>
      intro i lap lidx hn hl
      have hle : buf.length ≤ i := by omega
      rw [lookLoop_none (List.get?_eq_none.mpr hle)]
      exact hl
  | succ n ih =>
      intro i lap lidx hn hl
      cases hget : buf.get? i with
      | none =>
          rw [lookLoop_none hget]
          exact hl
      | some w =>
          obtain ⟨hi, _⟩ := List.get?_eq_some.mp hget
          by_cases hlt : distSq f lap < t2
          · rw [lookLoop_go hget hlt]
            exact ih (i + 1) w i (by omega) hi
          · rw [lookLoop_stop hget hlt]
            exact hl

/-- C10: on a non-empty buffer the look-ahead walk always returns an
index strictly below the buffer length (so `waypoint_buffer.at(look_ahead_index)`
in the emit step never fails), and on a single-element buffer both the
steering target and the look-ahead point are the buffer front itself at
index 0. -/
theorem bufferAccess_in_bounds :
    (∀ (t2 : ℚ) (f : Waypoint) (rest : List Waypoint),
        ∃ lap lidx, lookAhead t2 (f :: rest) = some (lap, lidx) ∧
          lidx < (f :: rest).length) ∧
      (∀ (t2 u2 : ℚ) (f : Waypoint),
        selectTarget t2 [f] = some f ∧ lookAhead u2 [f] = some (f, 0)) := by
  constructor
  · intro t2 f rest
    refine ⟨(lookLoop f t2 (f :: rest) 0 f 0).1, (lookLoop f t2 (f :: rest) 0 f 0).2,
      by rw [lookAhead], ?_⟩
    exact lookLoop_lidx_lt f t2 (f :: rest) (f :: rest).length 0 f 0 (by omega) (by simp)
  · intro t2 u2 f
    constructor
    · rw [selectTarget]
      by_cases hlt : distSq f f < t2
      · rw [targetLoop_go (b := [f]) (i := 0) (t := f) (w := f) rfl hlt,
          targetLoop_none (b := [f]) (i := 1) rfl]
      · rw [targetLoop_stop (b := [f]) (i := 0) (t := f) (w := f) rfl hlt]
    · rw [lookAhead]
      by_cases hlt : distSq f f < u2
      · rw [lookLoop_go (b := [f]) (i := 0) (l := f) (w := f) rfl hlt,
          lookLoop_none (b := [f]) (i := 1) rfl]
      · rw [lookLoop_stop (b := [f]) (i := 0) (l := f) (w := f) rfl hlt]

/-- C6: the approaching-junction flag is false unless the look-ahead
point is inside a junction while the buffer front is not; in that case,
above the highway speed threshold the flag is true exactly when some
buffer entry at an index strictly before the look-ahead index has more
than one successor, and at or below the threshold it is true
unconditionally. -/
theorem junctionFlag_spec (nextOf : Waypoint → List Waypoint) (speedLimit : ℚ)
    (f : Waypoint) (rest : List Waypoint) (lap : Waypoint) (lidx : ℕ) :
    (¬ (lap.isJunction = true ∧ f.isJunction = false) →
        junctionFlag nextOf speedLimit (f :: rest) lap lidx = false) ∧
      (lap.isJunction = true → f.isJunction = false → HIGHWAY_SPEED < speedLimit →
        (junctionFlag nextOf speedLimit (f :: rest) lap lidx = true ↔
          ∃ w ∈ (f :: rest).take lidx, 1 < (nextOf w).length)) ∧
      (lap.isJunction = true → f.isJunction = false → speedLimit ≤ HIGHWAY_SPEED →
        junctionFlag nextOf speedLimit (f :: rest) lap lidx = true) := by
  refine ⟨?_, ?_, ?_⟩
  · intro h
    have hcond : (lap.isJunction && !f.isJunction) = false := by
      cases hl : lap.isJunction <;> cases hf : f.isJunction <;> simp_all
    simp [junctionFlag, hcond]
  · intro hl hf hs
    have hcond : (lap.isJunction && !f.isJunction) = true := by simp [hl, hf]
    simp [junctionFlag, hcond, hs, List.any_eq_true]
  · intro hl hf hs
    have hcond : (lap.isJunction && !f.isJunction) = true := by simp [hl, hf]
    simp [junctionFlag, hcond, not_lt.mpr hs]

/-- C6 witness, the spec's two scenarios: front `cex0` not a junction,
look-ahead point `cexJunction` a junction at index 1.  With speed limit
30 (above the highway threshold) and no multi-successor entry before the
look-ahead index the flag is false; with speed limit 10 (below the
threshold) it is true unconditionally. -/
theorem junctionFlag_spec_witness :
    junctionFlag cexNext 30 [cex0, cexJunction] cexJunction 1 = false ∧
      junctionFlag cexNext 10 [cex0, cexJunction] cexJunction 1 = true := by
  constructor
  · have hiff := (junctionFlag_spec cexNext 30 cex0 [cexJunction] cexJunction 1).2.1
      rfl rfl (by norm_num [HIGHWAY_SPEED])
    cases hfl : junctionFlag cexNext 30 [cex0, cexJunction] cexJunction 1 with
    | false => rfl
    | true =>
        exfalso
        obtain ⟨w, hw, hlen⟩ := hiff.mp hfl
        have hw0 : w = cex0 := by simpa using hw
        subst hw0
        revert hlen
        norm_num [cexNext, cex0, cex25]
  · exact (junctionFlag_spec cexNext 10 cex0 [cexJunction] cexJunction 1).2.2
      rfl rfl (by norm_num [HIGHWAY_SPEED])

end TrafficManager
